import Mathlib

/-!
Shallow embedding of two files of `qiskit-nature`:

* `src/qiskit_nature/second_q/algorithms/ground_state_solvers/minimum_eigensolver_factories/vqe_uvcc_factory.py`
  (`VQEUVCCFactory`): a factory holding user-overridable configuration
  (ansatz, initial state, initial point) and one eagerly constructed `VQE`
  instance, whose `get_solver` reconfigures mutable Python objects in place.
  Mutable Python objects (`UVCC` ansatz instances, `VSCFInitialPoint`
  strategy objects, the `VQE` solver) are modelled by a heap mapping object
  ids to object values, so object identity and in-place mutation are
  explicit.

* `src/test/second_q/problems/test_electronic_structure_problem.py`
  (`TestElectronicStructureProblem`): the assertion procedure of the
  regression test, parametric in the driver output and the golden fixture.
-/

namespace QiskitNature

/-- Python runtime errors that the embedded fragment can raise.
`typeError` stands for `TypeError` (e.g. `len` applied to an `int`);
`qiskitNatureError` stands for the library error raised by
`VSCFInitialPoint.to_numpy_array` when no ansatz is bound. -/
inductive PyError
  | typeError
  | qiskitNatureError
deriving DecidableEq, Repr

/-- The `basis.num_modals_per_mode` attribute: per the code it is either a
single integer (uniform modal count) or a list of per-mode modal counts. -/
inductive NumModalsPerMode
  | scalar (n : Nat)
  | seq (l : List Nat)
deriving DecidableEq, Repr

/-- The `basis` attribute of a vibrational structure problem. -/
structure VibrationalBasis where
  num_modals_per_mode : NumModalsPerMode
deriving DecidableEq, Repr

/-- The `VibrationalStructureProblem` as consumed by `get_solver`: only its
`basis` attribute is read. -/
structure VibrationalStructureProblem where
  basis : VibrationalBasis
deriving DecidableEq, Repr

/-- Python `len` applied to the value of `num_modals_per_mode`
(line 155, `num_modes = len(num_modals)`): a list has a length, while a
Python `int` has no `__len__`, so `len` raises `TypeError`. -/
def pyLen : NumModalsPerMode → Except PyError Nat
  | .scalar _ => .error .typeError
  | .seq l => .ok l.length

/-- An opaque `QubitConverter`: the factory only stores it into the ansatz. -/
structure QubitConverter where
  tag : Nat
deriving DecidableEq, Repr

/-- Quantum circuits as far as this fragment distinguishes them:
`VSCF(num_modals)` reference-state circuits, and opaque user circuits. -/
inductive QuantumCircuit
  | vscf (num_modals : List Nat)
  | custom (tag : Nat)
deriving DecidableEq, Repr

/-- Which `UVCC` ansatz family an ansatz object belongs to: the default
`UVCCSD()` built by the factory, or a user-constructed `UVCC` variant. -/
inductive AnsatzKind
  | uvccsd
  | uvcc (tag : Nat)
deriving DecidableEq, Repr

/-- The mutable state of a `UVCC` ansatz object: the three fields that
`get_solver` assigns (lines 167-169). -/
structure UVCCObj where
  kind : AnsatzKind
  qubit_converter : Option QubitConverter := none
  num_modals : Option (List Nat) := none
  initial_state : Option QuantumCircuit := none
deriving DecidableEq, Repr

/-- The mutable state of a `VSCFInitialPoint` strategy object: its `ansatz`
back-reference (an object id, or unbound). -/
structure InitialPointObj where
  ansatz : Option Nat := none
deriving DecidableEq, Repr

/-- The mutable state of the owned `VQE` object: the forwarded keyword
options (opaque), and the `ansatz` / `initial_point` fields that
`get_solver` assigns (lines 177-178). -/
structure VQEObj where
  kwargs : Nat
  ansatz : Option Nat := none
  initial_point : Option (List Int) := none
deriving DecidableEq, Repr

/-- First value stored under key `i` in an association list (Python
attribute access through an object reference). -/
def alookup {α : Type} (i : Nat) : List (Nat × α) → Option α
  | [] => none
  | (k, v) :: t => if k = i then some v else alookup i t

/-- A heap of mutable Python objects, keyed by object id; `fresh` is the
next unused id. -/
structure Heap where
  ansatzes : List (Nat × UVCCObj)
  strategies : List (Nat × InitialPointObj)
  vqes : List (Nat × VQEObj)
  fresh : Nat
deriving DecidableEq, Repr

/-- The empty heap of a fresh Python runtime. -/
def Heap.empty : Heap := ⟨[], [], [], 0⟩

/-- Allocate a new `UVCC` ansatz object. -/
def Heap.allocAnsatz (h : Heap) (o : UVCCObj) : Heap × Nat :=
  ({ h with ansatzes := (h.fresh, o) :: h.ansatzes, fresh := h.fresh + 1 }, h.fresh)

/-- Allocate a new `VSCFInitialPoint` strategy object. -/
def Heap.allocStrategy (h : Heap) (o : InitialPointObj) : Heap × Nat :=
  ({ h with strategies := (h.fresh, o) :: h.strategies, fresh := h.fresh + 1 }, h.fresh)

/-- Allocate a new `VQE` object. -/
def Heap.allocVQE (h : Heap) (o : VQEObj) : Heap × Nat :=
  ({ h with vqes := (h.fresh, o) :: h.vqes, fresh := h.fresh + 1 }, h.fresh)

/-- Mutate the ansatz object with id `i` in place. -/
def Heap.updateAnsatz (h : Heap) (i : Nat) (f : UVCCObj → UVCCObj) : Heap :=
  { h with ansatzes := h.ansatzes.map fun p => if p.1 = i then (p.1, f p.2) else p }

/-- Mutate the strategy object with id `i` in place. -/
def Heap.updateStrategy (h : Heap) (i : Nat) (f : InitialPointObj → InitialPointObj) : Heap :=
  { h with strategies := h.strategies.map fun p => if p.1 = i then (p.1, f p.2) else p }

/-- Mutate the `VQE` object with id `i` in place. -/
def Heap.updateVQE (h : Heap) (i : Nat) (f : VQEObj → VQEObj) : Heap :=
  { h with vqes := h.vqes.map fun p => if p.1 = i then (p.1, f p.2) else p }

/-- The `_initial_point` field of the factory: a raw NumPy array, a reference to
an `InitialPoint` strategy object, or Python `None` (reachable only through
the `initial_point` setter, since `__init__` replaces `None` by a fresh
`VSCFInitialPoint`). -/
inductive IPField
  | array (v : List Int)
  | strategy (i : Nat)
  | pynone
deriving DecidableEq, Repr

/-- A value acceptable as the `initial_point` constructor argument:
a raw NumPy array or an existing `InitialPoint` strategy object. -/
inductive IPInit
  | array (v : List Int)
  | strategy (i : Nat)
deriving DecidableEq, Repr

/-- The fields of a `VQEUVCCFactory` instance. `get_solver` never assigns
any of them (it mutates heap objects they refer to), so the factory value
is constant across `get_solver` calls. -/
structure Factory where
  _initial_state : Option QuantumCircuit
  _initial_point : IPField
  _ansatz : Option Nat
  _vqe : Nat
deriving DecidableEq, Repr

/-- Modelled from the spec: `VSCFInitialPoint.to_numpy_array` (the
initial-point strategy class lives outside `src/`). Per the spec it
evaluates the strategy on its bound ansatz to a numeric vector, namely the
all-zero vector of the length appropriate to the ansatz; the exact length
formula is outside `src/`, so the model takes the length to be a function
of the ansatz configuration (the total modal count). Only that the result
is a vector determined by the bound ansatz matters to the claims. -/
def vscfInitialPointVector (a : UVCCObj) : List Int :=
  List.replicate (a.num_modals.getD []).sum 0

/-- Embeds `self.initial_point.to_numpy_array()` for the strategy object with id
`sid`: reads the bound ansatz of the strategy and evaluates the vector; raises
if the strategy is missing or no ansatz is bound. -/
def Heap.to_numpy_array (h : Heap) (sid : Nat) : Except PyError (List Int) :=
  match alookup sid h.strategies with
  | none => .error .qiskitNatureError
  | some s =>
    match s.ansatz with
    | none => .error .qiskitNatureError
    | some aid =>
      match alookup aid h.ansatzes with
      | none => .error .qiskitNatureError
      | some a => .ok (vscfInitialPointVector a)

namespace VQEUVCCFactory

/-- Embeds `VQEUVCCFactory.__init__` (lines 63-94): stores the three optional
overrides, installs a fresh default `VSCFInitialPoint` when `initial_point`
is `None`, and eagerly constructs the single owned `VQE` from the forwarded
keyword options `kwargs`. -/
def init (h : Heap) (initial_point : Option IPInit) (ansatz : Option Nat)
    (initial_state : Option QuantumCircuit) (kwargs : Nat) : Heap × Factory :=
  let ipAlloc : Heap × IPField :=
    match initial_point with
    | some (.array v) => (h, .array v)
    | some (.strategy i) => (h, .strategy i)
    | none =>
      let hs := h.allocStrategy {}
      (hs.1, .strategy hs.2)
  let vqeAlloc := ipAlloc.1.allocVQE { kwargs := kwargs }
  (vqeAlloc.1,
    { _initial_state := initial_state
      _initial_point := ipAlloc.2
      _ansatz := ansatz
      _vqe := vqeAlloc.2 })

/-- Embeds `VQEUVCCFactory.get_solver` (lines 137-179), as a state transformer on
the heap returning the object id of the returned solver:

* lines 153-155: read `num_modals = basis.num_modals_per_mode` and compute
  `num_modes = len(num_modals)` — `len` raises `TypeError` on an `int`;
* lines 157-158: if `num_modals` is an `int`, replace it by
  `[num_modals] * num_modes`;
* lines 160-162: initial state = user override, else `VSCF(num_modals)`;
* lines 164-166: ansatz = `self._ansatz`, else a fresh `UVCCSD()`;
* lines 167-169: assign the `qubit_converter` of the ansatz, `num_modals` and
  `initial_state` fields in place;
* lines 171-175: if `self.initial_point` is an `InitialPoint`, bind its
  `ansatz` field to the resolved ansatz and call `to_numpy_array()`;
  otherwise use the stored value verbatim;
* lines 177-179: assign `initial_point`, then `ansatz`, on the owned `VQE`
  and return it. -/
def get_solver (h : Heap) (f : Factory) (problem : VibrationalStructureProblem)
    (qubit_converter : QubitConverter) : Except PyError (Heap × Nat) :=
  match pyLen problem.basis.num_modals_per_mode with
  | .error e => .error e
  | .ok num_modes =>
    let num_modals : List Nat :=
      match problem.basis.num_modals_per_mode with
      | .scalar n => List.replicate num_modes n
      | .seq l => l
    let initial_state : QuantumCircuit :=
      match f._initial_state with
      | some c => c
      | none => .vscf num_modals
    let ansatzAlloc : Heap × Nat :=
      match f._ansatz with
      | some i => (h, i)
      | none => h.allocAnsatz { kind := .uvccsd }
    let aId := ansatzAlloc.2
    let h1 := ansatzAlloc.1.updateAnsatz aId fun a =>
      { a with
        qubit_converter := some qubit_converter
        num_modals := some num_modals
        initial_state := some initial_state }
    let ipStep : Except PyError (Heap × Option (List Int)) :=
      match f._initial_point with
      | .strategy sid =>
        let h2 := h1.updateStrategy sid fun s => { s with ansatz := some aId }
        match h2.to_numpy_array sid with
        | .error e => .error e
        | .ok v => .ok (h2, some v)
      | .array v => .ok (h1, some v)
      | .pynone => .ok (h1, none)
    match ipStep with
    | .error e => .error e
    | .ok hv =>
      let h3 := hv.1.updateVQE f._vqe fun s => { s with initial_point := hv.2 }
      let h4 := h3.updateVQE f._vqe fun s => { s with ansatz := some aId }
      .ok (h4, f._vqe)

/-- Modelled from the spec: `VQE.supports_aux_operators` is the class-level
capability flag of the `qiskit.algorithms.VQE` class (outside `src/`);
`VQE` supports auxiliary operators, so the flag is `true`. -/
def vqeClassSupportsAuxOperators : Bool := true

/-- Embeds `VQEUVCCFactory.supports_aux_operators` (lines 181-182): returns
`VQE.supports_aux_operators()`, a class-level query on `VQE` itself. -/
def supports_aux_operators (_f : Factory) : Bool :=
  vqeClassSupportsAuxOperators

end VQEUVCCFactory


end QiskitNature

namespace QiskitNature

/-- The ansatz object installed on the solver object with id `vid`:
follow the `ansatz` field of the solver object into the heap. -/
def solverAnsatzObj (h : Heap) (vid : Nat) : Option UVCCObj :=
  match alookup vid h.vqes with
  | some v =>
    match v.ansatz with
    | some aid => alookup aid h.ansatzes
    | none => none
  | none => none

/-- The `initial_point` field of the solver object with id `vid`
(`none` when no such object exists). -/
def solverInitialPoint (h : Heap) (vid : Nat) : Option (Option (List Int)) :=
  (alookup vid h.vqes).map VQEObj.initial_point

/-- A concrete no-override factory in a fresh runtime, with solver options
tag `5`: the heap after construction and the factory value. -/
def demoHeap1 : Heap := (VQEUVCCFactory.init Heap.empty none none none 5).1

/-- The factory value of the concrete no-override construction. -/
def demoFactory : Factory := (VQEUVCCFactory.init Heap.empty none none none 5).2

/-- A concrete problem with three modes of modal counts `[2, 3, 2]`. -/
def demoProblem : VibrationalStructureProblem := ⟨⟨.seq [2, 3, 2]⟩⟩

/-- First concrete `get_solver` run. -/
def demoRun1 : Except PyError (Heap × Nat) :=
  VQEUVCCFactory.get_solver demoHeap1 demoFactory demoProblem ⟨7⟩

/-- Heap after the first concrete run. -/
def demoHeap2 : Heap :=
  match demoRun1 with
  | .ok hv => hv.1
  | .error _ => Heap.empty

/-- Second concrete `get_solver` run, same problem and converter. -/
def demoRun2 : Except PyError (Heap × Nat) :=
  VQEUVCCFactory.get_solver demoHeap2 demoFactory demoProblem ⟨7⟩

/-- Heap after the second concrete run. -/
def demoHeap3 : Heap :=
  match demoRun2 with
  | .ok hv => hv.1
  | .error _ => Heap.empty

/-- A runtime in which the user has constructed their own `UVCC` ansatz
object (id `0`). -/
def demoUserHeap0 : Heap := (Heap.empty.allocAnsatz { kind := .uvcc 9 }).1

/-- A factory constructed with the user ansatz object as override. -/
def demoUserInit : Heap × Factory :=
  VQEUVCCFactory.init demoUserHeap0 none (some 0) none 5

/-- The concrete `get_solver` run on the user-ansatz factory. -/
def demoUserRun : Except PyError (Heap × Nat) :=
  VQEUVCCFactory.get_solver demoUserInit.1 demoUserInit.2 demoProblem ⟨7⟩

/-- Heap after the user-ansatz run. -/
def demoUserHeap2 : Heap :=
  match demoUserRun with
  | .ok hv => hv.1
  | .error _ => Heap.empty

/-- A user-ansatz override is live in heap `g`: whenever the factory holds
an ansatz reference, the referenced object exists. In a real Python run
every stored reference points to a live object, so this is an invariant of
the runtime, not an extra assumption. -/
def ansatzLive (g : Heap) (f : Factory) : Prop :=
  ∀ aid, f._ansatz = some aid → ∃ a0, alookup aid g.ansatzes = some a0

/-- A value of the auxiliary second-quantized operator collection returned
by `second_q_ops()`: either a `SecondQuantizedOp` instance or some other
object. -/
inductive AuxOpValue
  | secondQuantizedOp (tag : Nat)
  | other (tag : Nat)
deriving DecidableEq, Repr

/-- Python `isinstance(x, SecondQuantizedOp)`. -/
def isSecondQuantizedOp : AuxOpValue → Bool
  | .secondQuantizedOp _ => true
  | .other _ => false

/-- The output of `electronic_structure_problem.second_q_ops()` as consumed
by the test: the `(label, coefficient)` pairs of the primary electronic
`to_list()` output of the primary operator, and the values of the named auxiliary-operator
collection. Coefficients are embedded as rationals. -/
structure SecondQOpsResult where
  electr_to_list : List (String × Rat)
  second_quantized_ops : List AuxOpValue
deriving DecidableEq, Repr

/-- Embeds `np.isclose(a, b)` with NumPy defaults `rtol = 1e-5`, `atol = 1e-8`:
`|a - b| <= atol + rtol * |b|`. -/
def npIsClose (a b : Rat) : Bool :=
  |a - b| ≤ 1 / 100000000 + (1 / 100000) * |b|

/-- One `(expected, computed)` pair check of the third subtest (line 54):
`s[0] == t[0] and np.isclose(np.abs(s[1]), np.abs(t[1]))`. -/
def termPairCheck (s t : String × Rat) : Bool :=
  s.1 == t.1 && npIsClose |s.2| |t.2|

/-- The assertion procedure of `test_second_q_ops_without_transformers`
(test file lines 32-56), parametric in the parsed golden fixture
`H2_631g_ferm_op_two_ints` (`expected`) and in the driver output: three
subtests, (1) `len(second_quantized_ops) == expected_num_of_sec_quant_ops`
with the expected count fixed to `6`, (2) every value of the collection is
a `SecondQuantizedOp`, (3) `all(s[0] == t[0] and
np.isclose(np.abs(s[1]), np.abs(t[1])) for s, t in
zip(expected_fermionic_op, electr_sec_quant_op.to_list()))`. -/
def test_second_q_ops_without_transformers (expected : List (String × Rat))
    (r : SecondQOpsResult) : Bool :=
  (r.second_quantized_ops.length == 6) &&
  r.second_quantized_ops.all isSecondQuantizedOp &&
  (expected.zip r.electr_to_list).all fun st => termPairCheck st.1 st.2

/-- A one-term expected fixture used to exhibit the zip truncation. -/
def demoExpected : List (String × Rat) := [("+-", 1)]

/-- A computed result whose primary operator has one surplus term relative
to `demoExpected` (and a well-formed auxiliary collection of 6 operators).
-/
def demoComputed : SecondQOpsResult :=
  { electr_to_list := [("+-", 1), ("II", 5)]
    second_quantized_ops := List.replicate 6 (.secondQuantizedOp 0) }

section AssocLemmas

variable {α : Type} (l : List (Nat × α)) (i j : Nat) (f : α → α)

@[simp] theorem alookup_nil : alookup i ([] : List (Nat × α)) = none := rfl

@[simp] theorem alookup_cons (k : Nat) (v : α) :
    alookup i ((k, v) :: l) = if k = i then some v else alookup i l := rfl

/-- Updating the entry at key `i` rewrites exactly the value that
`alookup i` returns. -/
theorem alookup_map_update :
    alookup i (l.map fun p => if p.1 = i then (p.1, f p.2) else p)
      = (alookup i l).map f := by
  induction l with
  | nil => rfl
  | cons p t ih =>
    obtain ⟨k, v⟩ := p
    by_cases hk : k = i
    · simp [hk]
    · simp [hk, ih]

/-- Updating the entry at key `i` leaves lookups at other keys unchanged. -/
theorem alookup_map_update_ne (h : j ≠ i) :
    alookup j (l.map fun p => if p.1 = i then (p.1, f p.2) else p)
      = alookup j l := by
  induction l with
  | nil => rfl
  | cons p t ih =>
    obtain ⟨k, v⟩ := p
    by_cases hk : k = i
    · subst hk
      have hkj : ¬ k = j := fun hh => h hh.symm
      simp [hkj, ih]
    · by_cases hkj : k = j <;> simp [hk, hkj, h, ih]

/-- In-place update preserves the key set. -/
theorem map_fst_map_update :
    (l.map fun p => if p.1 = i then (p.1, f p.2) else p).map Prod.fst
      = l.map Prod.fst := by
  induction l with
  | nil => rfl
  | cons p t ih =>
    by_cases hk : p.1 = i <;> simp [hk, ih]

end AssocLemmas

section HeapLemmas

variable (h : Heap) (i j : Nat)

@[simp] theorem Heap.vqes_updateAnsatz (f : UVCCObj → UVCCObj) :
    (h.updateAnsatz i f).vqes = h.vqes := rfl

@[simp] theorem Heap.strategies_updateAnsatz (f : UVCCObj → UVCCObj) :
    (h.updateAnsatz i f).strategies = h.strategies := rfl

@[simp] theorem Heap.vqes_updateStrategy (f : InitialPointObj → InitialPointObj) :
    (h.updateStrategy i f).vqes = h.vqes := rfl

@[simp] theorem Heap.ansatzes_updateStrategy (f : InitialPointObj → InitialPointObj) :
    (h.updateStrategy i f).ansatzes = h.ansatzes := rfl

@[simp] theorem Heap.ansatzes_updateVQE (f : VQEObj → VQEObj) :
    (h.updateVQE i f).ansatzes = h.ansatzes := rfl

@[simp] theorem Heap.strategies_updateVQE (f : VQEObj → VQEObj) :
    (h.updateVQE i f).strategies = h.strategies := rfl

@[simp] theorem Heap.vqes_allocAnsatz (o : UVCCObj) :
    (h.allocAnsatz o).1.vqes = h.vqes := rfl

@[simp] theorem Heap.strategies_allocAnsatz (o : UVCCObj) :
    (h.allocAnsatz o).1.strategies = h.strategies := rfl

@[simp] theorem Heap.alookup_updateVQE (f : VQEObj → VQEObj) :
    alookup i (h.updateVQE i f).vqes = (alookup i h.vqes).map f :=
  alookup_map_update h.vqes i f

@[simp] theorem Heap.alookup_updateAnsatz (f : UVCCObj → UVCCObj) :
    alookup i (h.updateAnsatz i f).ansatzes = (alookup i h.ansatzes).map f :=
  alookup_map_update h.ansatzes i f

@[simp] theorem Heap.alookup_updateStrategy (f : InitialPointObj → InitialPointObj) :
    alookup i (h.updateStrategy i f).strategies = (alookup i h.strategies).map f :=
  alookup_map_update h.strategies i f

theorem Heap.alookup_updateAnsatz_ne (f : UVCCObj → UVCCObj) (hij : j ≠ i) :
    alookup j (h.updateAnsatz i f).ansatzes = alookup j h.ansatzes :=
  alookup_map_update_ne h.ansatzes i j f hij

@[simp] theorem Heap.keys_updateVQE (f : VQEObj → VQEObj) :
    (h.updateVQE i f).vqes.map Prod.fst = h.vqes.map Prod.fst :=
  map_fst_map_update h.vqes i f

@[simp] theorem Heap.keys_updateAnsatz (f : UVCCObj → UVCCObj) :
    (h.updateAnsatz i f).ansatzes.map Prod.fst = h.ansatzes.map Prod.fst :=
  map_fst_map_update h.ansatzes i f

@[simp] theorem Heap.allocAnsatz_snd (o : UVCCObj) :
    (h.allocAnsatz o).2 = h.fresh := rfl

@[simp] theorem Heap.allocAnsatz_fst (o : UVCCObj) :
    (h.allocAnsatz o).1
      = { h with ansatzes := (h.fresh, o) :: h.ansatzes, fresh := h.fresh + 1 } := rfl

end HeapLemmas

/-- C1: Evaluating the embedded `get_solver` at a problem whose basis
reports the scalar modal count `4`: line 155 computes
`num_modes = len(num_modals)` before the `isinstance(num_modals, int)`
check on line 157, and `len` of a Python `int` raises `TypeError`, so the
call fails instead of normalizing the layout to `[4, 4, 4]`. -/
theorem get_solver_scalar_modals_raises (h : Heap) (f : Factory)
    (qc : QubitConverter) :
    VQEUVCCFactory.get_solver h f ⟨⟨.scalar 4⟩⟩ qc = .error .typeError := by
  rfl

namespace VQEUVCCFactory

/-- Normal form of the first `get_solver` call on a factory built with no
overrides in a fresh runtime (strategy object id `0`, `VQE` id `1`): a
fresh `UVCCSD` object gets id `2`, is configured from the problem, the
default strategy is bound to it, and the owned `VQE` is configured. -/
theorem defaultRun1 (l : List Nat) (qc : QubitConverter) (kw : Nat) :
    get_solver (init Heap.empty none none none kw).1
        (init Heap.empty none none none kw).2 ⟨⟨.seq l⟩⟩ qc
      = .ok (⟨[(2, { kind := .uvccsd, qubit_converter := some qc, num_modals := some l,
                     initial_state := some (.vscf l) })],
             [(0, { ansatz := some 2 })],
             [(1, { kwargs := kw, ansatz := some 2,
                    initial_point := some (List.replicate l.sum 0) })],
             3⟩, 1) := rfl

/-- Normal form of the second `get_solver` call (same problem, same
converter) from the state left by `defaultRun1`: a second fresh `UVCCSD`
object gets id `3` and the shared `VQE` (id `1`) is reconfigured. -/
theorem defaultRun2 (l : List Nat) (qc : QubitConverter) (kw : Nat) :
    get_solver (⟨[(2, { kind := .uvccsd, qubit_converter := some qc, num_modals := some l,
                        initial_state := some (.vscf l) })],
                 [(0, { ansatz := some 2 })],
                 [(1, { kwargs := kw, ansatz := some 2,
                        initial_point := some (List.replicate l.sum 0) })],
                 3⟩ : Heap)
        (init Heap.empty none none none kw).2 ⟨⟨.seq l⟩⟩ qc
      = .ok (⟨[(3, { kind := .uvccsd, qubit_converter := some qc, num_modals := some l,
                     initial_state := some (.vscf l) }),
              (2, { kind := .uvccsd, qubit_converter := some qc, num_modals := some l,
                    initial_state := some (.vscf l) })],
             [(0, { ansatz := some 3 })],
             [(1, { kwargs := kw, ansatz := some 3,
                    initial_point := some (List.replicate l.sum 0) })],
             4⟩, 1) := rfl

end VQEUVCCFactory

/-- C4: For a factory constructed with no overrides (in a fresh
runtime), running `get_solver` twice with the same problem and the same
qubit converter leaves the returned solver with an ansatz object equal (as
a value) to the one after the first call, and with the same initial point:
idempotence under unchanged input. -/
theorem get_solver_idempotent_no_overrides (l : List Nat) (qc : QubitConverter)
    (kw : Nat) (h2 h3 : Heap) (sid1 sid2 : Nat)
    (run1 : VQEUVCCFactory.get_solver (VQEUVCCFactory.init Heap.empty none none none kw).1
        (VQEUVCCFactory.init Heap.empty none none none kw).2 ⟨⟨.seq l⟩⟩ qc
        = .ok (h2, sid1))
    (run2 : VQEUVCCFactory.get_solver h2
        (VQEUVCCFactory.init Heap.empty none none none kw).2 ⟨⟨.seq l⟩⟩ qc
        = .ok (h3, sid2)) :
    solverAnsatzObj h3 sid2 = solverAnsatzObj h2 sid1 ∧
    solverInitialPoint h3 sid2 = solverInitialPoint h2 sid1 := by
  rw [VQEUVCCFactory.defaultRun1] at run1
  simp only [Except.ok.injEq, Prod.mk.injEq] at run1
  obtain ⟨rfl, rfl⟩ := run1
  rw [VQEUVCCFactory.defaultRun2] at run2
  simp only [Except.ok.injEq, Prod.mk.injEq] at run2
  obtain ⟨rfl, rfl⟩ := run2
  exact ⟨rfl, rfl⟩

/-- C10: With no ansatz override set (in a fresh runtime), the
stored ansatz field of the factory is `None` (and `get_solver` assigns no
factory field, as the embedded `get_solver` returns no modified
factory), and two successive `get_solver` calls install two distinct fresh
`UVCCSD` ansatz objects on the shared solver: the id installed by each call
was unallocated before that call, and the two ids differ. -/
theorem fresh_default_ansatz_each_call (l : List Nat) (qc : QubitConverter)
    (kw : Nat) (h2 h3 : Heap) (sid1 sid2 : Nat)
    (run1 : VQEUVCCFactory.get_solver (VQEUVCCFactory.init Heap.empty none none none kw).1
        (VQEUVCCFactory.init Heap.empty none none none kw).2 ⟨⟨.seq l⟩⟩ qc
        = .ok (h2, sid1))
    (run2 : VQEUVCCFactory.get_solver h2
        (VQEUVCCFactory.init Heap.empty none none none kw).2 ⟨⟨.seq l⟩⟩ qc
        = .ok (h3, sid2)) :
    (VQEUVCCFactory.init Heap.empty none none none kw).2._ansatz = none ∧
    ∃ a1 a2 : Nat,
      (alookup sid1 h2.vqes).map VQEObj.ansatz = some (some a1) ∧
      (alookup sid2 h3.vqes).map VQEObj.ansatz = some (some a2) ∧
      a1 ≠ a2 ∧
      alookup a1 (VQEUVCCFactory.init Heap.empty none none none kw).1.ansatzes = none ∧
      alookup a2 h2.ansatzes = none ∧
      (alookup a1 h2.ansatzes).map UVCCObj.kind = some .uvccsd ∧
      (alookup a2 h3.ansatzes).map UVCCObj.kind = some .uvccsd := by
  rw [VQEUVCCFactory.defaultRun1] at run1
  simp only [Except.ok.injEq, Prod.mk.injEq] at run1
  obtain ⟨rfl, rfl⟩ := run1
  rw [VQEUVCCFactory.defaultRun2] at run2
  simp only [Except.ok.injEq, Prod.mk.injEq] at run2
  obtain ⟨rfl, rfl⟩ := run2
  exact ⟨rfl, 2, 3, rfl, rfl, by decide, rfl, rfl, rfl, rfl⟩

/-- Inversion of a successful `get_solver` call: whatever the
configuration of the factory, the returned solver is its owned `_vqe` object and
the call allocates no `VQE` object (the `VQE` key set of the heap is
unchanged). -/
theorem get_solver_ok_inv (g : Heap) (f : Factory) (p : VibrationalStructureProblem)
    (qc : QubitConverter) (h2 : Heap) (sid : Nat)
    (run : VQEUVCCFactory.get_solver g f p qc = .ok (h2, sid)) :
    sid = f._vqe ∧ h2.vqes.map Prod.fst = g.vqes.map Prod.fst := by
  unfold VQEUVCCFactory.get_solver at run
  cases hnm : p.basis.num_modals_per_mode with
  | scalar n => rw [hnm] at run; simp [pyLen] at run
  | seq l =>
    rw [hnm] at run
    simp only [pyLen] at run
    cases haf : f._ansatz <;> rw [haf] at run <;>
      cases hip : f._initial_point <;> rw [hip] at run <;>
      simp only [] at run
    case some.strategy s aid | none.strategy s =>
      split at run
      · exact absurd run (by simp)
      · rename_i ipStep hv heq
        simp only [Except.ok.injEq, Prod.mk.injEq] at run
        obtain ⟨rfl, rfl⟩ := run
        split at heq
        · exact absurd heq (by simp)
        · simp only [Except.ok.injEq] at heq
          subst heq
          simp
    all_goals
      simp only [Except.ok.injEq, Prod.mk.injEq] at run
      obtain ⟨rfl, rfl⟩ := run
      simp

/-- C2: For every factory construction, the constructor eagerly
allocates the single owned `VQE` object from the forwarded keyword options
(the object exists in the heap right after `init`, configured with those
options), and every successful `get_solver` call — whatever the problem and
qubit converter — returns exactly that object id and allocates no `VQE`
object. Since `get_solver` assigns no factory field, the `_vqe` reference
is the same for the entire lifetime of the factory. -/
theorem single_shared_solver (h : Heap) (ip : Option IPInit) (a : Option Nat)
    (ist : Option QuantumCircuit) (kw : Nat) :
    alookup (VQEUVCCFactory.init h ip a ist kw).2._vqe
        (VQEUVCCFactory.init h ip a ist kw).1.vqes = some { kwargs := kw } ∧
    ∀ (g : Heap) (p : VibrationalStructureProblem) (qc : QubitConverter)
      (h2 : Heap) (sid : Nat),
      VQEUVCCFactory.get_solver g (VQEUVCCFactory.init h ip a ist kw).2 p qc
          = .ok (h2, sid) →
      sid = (VQEUVCCFactory.init h ip a ist kw).2._vqe ∧
      h2.vqes.map Prod.fst = g.vqes.map Prod.fst := by
  constructor
  · cases ip with
    | none => simp [VQEUVCCFactory.init, Heap.allocStrategy, Heap.allocVQE]
    | some v => cases v <;> simp [VQEUVCCFactory.init, Heap.allocVQE]
  · intro g p qc h2 sid run
    exact get_solver_ok_inv g _ p qc h2 sid run

/-- C3: When the factory holds a user-supplied ansatz object (id
`aid`), a successful `get_solver` call mutates that very object in place:
its `qubit_converter`, `num_modals` and `initial_state` fields are
unconditionally overwritten with the values resolved from the current
problem; no ansatz object is allocated or copied (the ansatz key set is
unchanged); and the returned solver is the owned `VQE` with that same
object id installed as its ansatz. -/
theorem user_ansatz_mutated_in_place (g : Heap) (f : Factory) (l : List Nat)
    (qc : QubitConverter) (aid : Nat) (a0 : UVCCObj) (v0 : VQEObj)
    (h2 : Heap) (sid : Nat)
    (ha : f._ansatz = some aid)
    (ha0 : alookup aid g.ansatzes = some a0)
    (hv0 : alookup f._vqe g.vqes = some v0)
    (run : VQEUVCCFactory.get_solver g f ⟨⟨.seq l⟩⟩ qc = .ok (h2, sid)) :
    alookup aid h2.ansatzes
        = some { a0 with
                 qubit_converter := some qc
                 num_modals := some l
                 initial_state := some (f._initial_state.getD (.vscf l)) } ∧
    h2.ansatzes.map Prod.fst = g.ansatzes.map Prod.fst ∧
    sid = f._vqe ∧
    (alookup f._vqe h2.vqes).map VQEObj.ansatz = some (some aid) := by
  unfold VQEUVCCFactory.get_solver at run
  simp only [pyLen] at run
  rw [ha] at run
  cases his : f._initial_state <;> rw [his] at run <;>
    cases hip : f._initial_point <;> rw [hip] at run <;> simp only [] at run
  case none.strategy s | some.strategy c s =>
    split at run
    · exact absurd run (by simp)
    · rename_i ipStep hv heq
      simp only [Except.ok.injEq, Prod.mk.injEq] at run
      obtain ⟨rfl, rfl⟩ := run
      split at heq
      · exact absurd heq (by simp)
      · simp only [Except.ok.injEq] at heq
        subst heq
        refine ⟨?_, by simp, rfl, ?_⟩
        · simp [ha0, his]
        · simp [hv0]
  all_goals
    simp only [Except.ok.injEq, Prod.mk.injEq] at run
    obtain ⟨rfl, rfl⟩ := run
    refine ⟨?_, by simp, rfl, ?_⟩
    · simp [ha0, his]
    · simp [hv0]

/-- Witness for C4: the generic idempotence theorem applied at the concrete
two-run execution. -/
theorem get_solver_idempotent_no_overrides_witness :
    solverAnsatzObj demoHeap3 1 = solverAnsatzObj demoHeap2 1 ∧
    solverInitialPoint demoHeap3 1 = solverInitialPoint demoHeap2 1 :=
  get_solver_idempotent_no_overrides [2, 3, 2] ⟨7⟩ 5 demoHeap2 demoHeap3 1 1
    (by rfl) (by rfl)

/-- Witness for C3: the mutate-in-place theorem applied at the concrete
user-ansatz factory and run. -/
theorem user_ansatz_mutated_in_place_witness :
    alookup 0 demoUserHeap2.ansatzes
        = some { kind := .uvcc 9, qubit_converter := some ⟨7⟩,
                 num_modals := some [2, 3, 2],
                 initial_state := some (.vscf [2, 3, 2]) } ∧
    demoUserHeap2.ansatzes.map Prod.fst = demoUserInit.1.ansatzes.map Prod.fst ∧
    (2 : Nat) = demoUserInit.2._vqe ∧
    (alookup demoUserInit.2._vqe demoUserHeap2.vqes).map VQEObj.ansatz
        = some (some 0) :=
  user_ansatz_mutated_in_place demoUserInit.1 demoUserInit.2 [2, 3, 2] ⟨7⟩ 0
    { kind := .uvcc 9 } { kwargs := 5 } demoUserHeap2 2
    (by rfl) (by rfl) (by rfl) (by rfl)

/-- Witness for C2: the shared-solver theorem applied at the concrete
no-override factory and the concrete first run. -/
theorem single_shared_solver_witness :
    (1 : Nat) = demoFactory._vqe ∧
    demoHeap2.vqes.map Prod.fst = demoHeap1.vqes.map Prod.fst :=
  (single_shared_solver Heap.empty none none none 5).2 demoHeap1 demoProblem ⟨7⟩
    demoHeap2 1 (by rfl)

/-- Witness for C10: the fresh-ansatz-per-call theorem applied at the
concrete two-run execution. -/
theorem fresh_default_ansatz_each_call_witness :
    (VQEUVCCFactory.init Heap.empty none none none 5).2._ansatz = none ∧
    ∃ a1 a2 : Nat,
      (alookup 1 demoHeap2.vqes).map VQEObj.ansatz = some (some a1) ∧
      (alookup 1 demoHeap3.vqes).map VQEObj.ansatz = some (some a2) ∧
      a1 ≠ a2 ∧
      alookup a1 (VQEUVCCFactory.init Heap.empty none none none 5).1.ansatzes = none ∧
      alookup a2 demoHeap2.ansatzes = none ∧
      (alookup a1 demoHeap2.ansatzes).map UVCCObj.kind = some .uvccsd ∧
      (alookup a2 demoHeap3.ansatzes).map UVCCObj.kind = some .uvccsd :=
  fresh_default_ansatz_each_call [2, 3, 2] ⟨7⟩ 5 demoHeap2 demoHeap3 1 1
    (by rfl) (by rfl)

/-- C5: the function `supports_aux_operators` equals the class-level capability flag
of the underlying `VQE` class for every factory, whatever its configuration
state: the result is independent of the factory instance and is exactly the
class flag. -/
theorem supports_aux_operators_delegates (f g : Factory) :
    VQEUVCCFactory.supports_aux_operators f
        = VQEUVCCFactory.vqeClassSupportsAuxOperators ∧
    VQEUVCCFactory.supports_aux_operators f
        = VQEUVCCFactory.supports_aux_operators g :=
  ⟨rfl, rfl⟩

/-- C6: The initial-point pipeline: (1) a constructor call with no
`initial_point` stores a reference to a fresh default `VSCFInitialPoint`
strategy object (unbound); (2) on a no-override factory, a successful
`get_solver` binds the stored strategy to exactly the ansatz installed on
the solver and writes the strategy-evaluated vector to the `initial_point`
field of the solver; (3) a stored raw array is written to the solver verbatim;
(4) a stored `None` is written to the solver verbatim as `None`. -/
theorem initial_point_pipeline :
    (∀ (h : Heap) (a : Option Nat) (ist : Option QuantumCircuit) (kw : Nat),
      (VQEUVCCFactory.init h none a ist kw).2._initial_point = .strategy h.fresh ∧
      alookup h.fresh (VQEUVCCFactory.init h none a ist kw).1.strategies
          = some { ansatz := none }) ∧
    (∀ (l : List Nat) (qc : QubitConverter) (kw : Nat) (h2 : Heap) (sid : Nat),
      VQEUVCCFactory.get_solver (VQEUVCCFactory.init Heap.empty none none none kw).1
          (VQEUVCCFactory.init Heap.empty none none none kw).2 ⟨⟨.seq l⟩⟩ qc
          = .ok (h2, sid) →
      (alookup 0 h2.strategies).map InitialPointObj.ansatz
          = some ((alookup sid h2.vqes).bind VQEObj.ansatz) ∧
      ∃ a, solverAnsatzObj h2 sid = some a ∧
        solverInitialPoint h2 sid = some (some (vscfInitialPointVector a))) ∧
    (∀ (g : Heap) (f : Factory) (p : VibrationalStructureProblem) (qc : QubitConverter)
       (h2 : Heap) (sid : Nat) (v : List Int) (v0 : VQEObj),
      f._initial_point = .array v →
      alookup f._vqe g.vqes = some v0 →
      VQEUVCCFactory.get_solver g f p qc = .ok (h2, sid) →
      solverInitialPoint h2 sid = some (some v)) ∧
    (∀ (g : Heap) (f : Factory) (p : VibrationalStructureProblem) (qc : QubitConverter)
       (h2 : Heap) (sid : Nat) (v0 : VQEObj),
      f._initial_point = .pynone →
      alookup f._vqe g.vqes = some v0 →
      VQEUVCCFactory.get_solver g f p qc = .ok (h2, sid) →
      solverInitialPoint h2 sid = some none) := by
  refine ⟨?_, ?_, ?_, ?_⟩
  · intro h a ist kw
    constructor
    · rfl
    · simp [VQEUVCCFactory.init, Heap.allocStrategy, Heap.allocVQE]
  · intro l qc kw h2 sid run
    rw [VQEUVCCFactory.defaultRun1] at run
    simp only [Except.ok.injEq, Prod.mk.injEq] at run
    obtain ⟨rfl, rfl⟩ := run
    exact ⟨rfl, _, rfl, rfl⟩
  · intro g f p qc h2 sid v v0 hip hv0 run
    unfold VQEUVCCFactory.get_solver at run
    cases hnm : p.basis.num_modals_per_mode with
    | scalar n => rw [hnm] at run; simp [pyLen] at run
    | seq l =>
      rw [hnm] at run
      simp only [pyLen] at run
      rw [hip] at run
      cases haf : f._ansatz <;> rw [haf] at run <;> simp only [] at run <;>
        simp only [Except.ok.injEq, Prod.mk.injEq] at run <;>
        obtain ⟨rfl, rfl⟩ := run <;>
        simp [solverInitialPoint, hv0]
  · intro g f p qc h2 sid v0 hip hv0 run
    unfold VQEUVCCFactory.get_solver at run
    cases hnm : p.basis.num_modals_per_mode with
    | scalar n => rw [hnm] at run; simp [pyLen] at run
    | seq l =>
      rw [hnm] at run
      simp only [pyLen] at run
      rw [hip] at run
      cases haf : f._ansatz <;> rw [haf] at run <;> simp only [] at run <;>
        simp only [Except.ok.injEq, Prod.mk.injEq] at run <;>
        obtain ⟨rfl, rfl⟩ := run <;>
        simp [solverInitialPoint, hv0]

/-- Witness for C6: the strategy part of the pipeline theorem at the
concrete no-override run. -/
theorem initial_point_pipeline_witness :
    (alookup 0 demoHeap2.strategies).map InitialPointObj.ansatz
        = some ((alookup 1 demoHeap2.vqes).bind VQEObj.ansatz) ∧
    ∃ a, solverAnsatzObj demoHeap2 1 = some a ∧
      solverInitialPoint demoHeap2 1 = some (some (vscfInitialPointVector a)) :=
  initial_point_pipeline.2.1 [2, 3, 2] ⟨7⟩ 5 demoHeap2 1 (by rfl)

/-- C7: Selection of initial state and ansatz on every successful
`get_solver` call: (1) with an initial-state override, the installed ansatz
carries exactly the override as its initial state; (2) without one, it
carries the default `VSCF` circuit sized to the modal layout; (3) with an
ansatz override, the installed ansatz of the solver is exactly the overridden
object (same id, same kind); (4) without one, the installed ansatz of the solver
is a freshly allocated default `UVCCSD`. -/
theorem override_or_default_selection :
    (∀ (g : Heap) (f : Factory) (l : List Nat) (qc : QubitConverter)
       (h2 : Heap) (sid : Nat) (c : QuantumCircuit) (v0 : VQEObj),
      f._initial_state = some c →
      alookup f._vqe g.vqes = some v0 →
      ansatzLive g f →
      VQEUVCCFactory.get_solver g f ⟨⟨.seq l⟩⟩ qc = .ok (h2, sid) →
      (solverAnsatzObj h2 sid).map UVCCObj.initial_state = some (some c)) ∧
    (∀ (g : Heap) (f : Factory) (l : List Nat) (qc : QubitConverter)
       (h2 : Heap) (sid : Nat) (v0 : VQEObj),
      f._initial_state = none →
      alookup f._vqe g.vqes = some v0 →
      ansatzLive g f →
      VQEUVCCFactory.get_solver g f ⟨⟨.seq l⟩⟩ qc = .ok (h2, sid) →
      (solverAnsatzObj h2 sid).map UVCCObj.initial_state
          = some (some (.vscf l))) ∧
    (∀ (g : Heap) (f : Factory) (l : List Nat) (qc : QubitConverter)
       (h2 : Heap) (sid : Nat) (aid : Nat) (a0 : UVCCObj) (v0 : VQEObj),
      f._ansatz = some aid →
      alookup aid g.ansatzes = some a0 →
      alookup f._vqe g.vqes = some v0 →
      VQEUVCCFactory.get_solver g f ⟨⟨.seq l⟩⟩ qc = .ok (h2, sid) →
      (alookup sid h2.vqes).map VQEObj.ansatz = some (some aid) ∧
      (alookup aid h2.ansatzes).map UVCCObj.kind = some a0.kind) ∧
    (∀ (g : Heap) (f : Factory) (l : List Nat) (qc : QubitConverter)
       (h2 : Heap) (sid : Nat) (v0 : VQEObj),
      f._ansatz = none →
      alookup f._vqe g.vqes = some v0 →
      VQEUVCCFactory.get_solver g f ⟨⟨.seq l⟩⟩ qc = .ok (h2, sid) →
      ∃ aid, aid = g.fresh ∧
        (alookup sid h2.vqes).map VQEObj.ansatz = some (some aid) ∧
        (alookup aid h2.ansatzes).map UVCCObj.kind = some .uvccsd) := by
  refine ⟨?_, ?_, ?_, ?_⟩
  · intro g f l qc h2 sid c v0 his hv0 hlive run
    unfold VQEUVCCFactory.get_solver at run
    simp only [pyLen] at run
    rw [his] at run
    cases haf : f._ansatz with
    | some aid =>
      obtain ⟨a0, ha0⟩ := hlive aid haf
      rw [haf] at run
      cases hip : f._initial_point <;> rw [hip] at run <;> simp only [] at run
      case strategy s =>
        split at run
        · exact absurd run (by simp)
        · rename_i ipStep hv heq
          simp only [Except.ok.injEq, Prod.mk.injEq] at run
          obtain ⟨rfl, rfl⟩ := run
          split at heq
          · exact absurd heq (by simp)
          · simp only [Except.ok.injEq] at heq
            subst heq
            simp [solverAnsatzObj, hv0, ha0]
      all_goals
        simp only [Except.ok.injEq, Prod.mk.injEq] at run
        obtain ⟨rfl, rfl⟩ := run
        simp [solverAnsatzObj, hv0, ha0]
    | none =>
      rw [haf] at run
      cases hip : f._initial_point <;> rw [hip] at run <;> simp only [] at run
      case strategy s =>
        split at run
        · exact absurd run (by simp)
        · rename_i ipStep hv heq
          simp only [Except.ok.injEq, Prod.mk.injEq] at run
          obtain ⟨rfl, rfl⟩ := run
          split at heq
          · exact absurd heq (by simp)
          · simp only [Except.ok.injEq] at heq
            subst heq
            simp [solverAnsatzObj, hv0]
      all_goals
        simp only [Except.ok.injEq, Prod.mk.injEq] at run
        obtain ⟨rfl, rfl⟩ := run
        simp [solverAnsatzObj, hv0]
  · intro g f l qc h2 sid v0 his hv0 hlive run
    unfold VQEUVCCFactory.get_solver at run
    simp only [pyLen] at run
    rw [his] at run
    cases haf : f._ansatz with
    | some aid =>
      obtain ⟨a0, ha0⟩ := hlive aid haf
      rw [haf] at run
      cases hip : f._initial_point <;> rw [hip] at run <;> simp only [] at run
      case strategy s =>
        split at run
        · exact absurd run (by simp)
        · rename_i ipStep hv heq
          simp only [Except.ok.injEq, Prod.mk.injEq] at run
          obtain ⟨rfl, rfl⟩ := run
          split at heq
          · exact absurd heq (by simp)
          · simp only [Except.ok.injEq] at heq
            subst heq
            simp [solverAnsatzObj, hv0, ha0]
      all_goals
        simp only [Except.ok.injEq, Prod.mk.injEq] at run
        obtain ⟨rfl, rfl⟩ := run
        simp [solverAnsatzObj, hv0, ha0]
    | none =>
      rw [haf] at run
      cases hip : f._initial_point <;> rw [hip] at run <;> simp only [] at run
      case strategy s =>
        split at run
        · exact absurd run (by simp)
        · rename_i ipStep hv heq
          simp only [Except.ok.injEq, Prod.mk.injEq] at run
          obtain ⟨rfl, rfl⟩ := run
          split at heq
          · exact absurd heq (by simp)
          · simp only [Except.ok.injEq] at heq
            subst heq
            simp [solverAnsatzObj, hv0]
      all_goals
        simp only [Except.ok.injEq, Prod.mk.injEq] at run
        obtain ⟨rfl, rfl⟩ := run
        simp [solverAnsatzObj, hv0]
  · intro g f l qc h2 sid aid a0 v0 haf ha0 hv0 run
    unfold VQEUVCCFactory.get_solver at run
    simp only [pyLen] at run
    rw [haf] at run
    cases hip : f._initial_point <;> rw [hip] at run <;> simp only [] at run
    case strategy s =>
      split at run
      · exact absurd run (by simp)
      · rename_i ipStep hv heq
        simp only [Except.ok.injEq, Prod.mk.injEq] at run
        obtain ⟨rfl, rfl⟩ := run
        split at heq
        · exact absurd heq (by simp)
        · simp only [Except.ok.injEq] at heq
          subst heq
          exact ⟨by simp [hv0], by simp [ha0]⟩
    all_goals
      simp only [Except.ok.injEq, Prod.mk.injEq] at run
      obtain ⟨rfl, rfl⟩ := run
      exact ⟨by simp [hv0], by simp [ha0]⟩
  · intro g f l qc h2 sid v0 haf hv0 run
    unfold VQEUVCCFactory.get_solver at run
    simp only [pyLen] at run
    rw [haf] at run
    cases hip : f._initial_point <;> rw [hip] at run <;> simp only [] at run
    case strategy s =>
      split at run
      · exact absurd run (by simp)
      · rename_i ipStep hv heq
        simp only [Except.ok.injEq, Prod.mk.injEq] at run
        obtain ⟨rfl, rfl⟩ := run
        split at heq
        · exact absurd heq (by simp)
        · simp only [Except.ok.injEq] at heq
          subst heq
          refine ⟨g.fresh, rfl, ?_, ?_⟩ <;> simp [hv0]
    all_goals
      simp only [Except.ok.injEq, Prod.mk.injEq] at run
      obtain ⟨rfl, rfl⟩ := run
      refine ⟨g.fresh, rfl, ?_, ?_⟩ <;> simp [hv0]

/-- Witness for C7: the ansatz-override part applied at the concrete
user-ansatz run. -/
theorem override_or_default_selection_witness :
    (alookup 2 demoUserHeap2.vqes).map VQEObj.ansatz = some (some 0) ∧
    (alookup 0 demoUserHeap2.ansatzes).map UVCCObj.kind
        = some (UVCCObj.kind { kind := .uvcc 9 }) :=
  override_or_default_selection.2.2.1 demoUserInit.1 demoUserInit.2 [2, 3, 2]
    ⟨7⟩ demoUserHeap2 2 0 { kind := .uvcc 9 } { kwargs := 5 }
    (by rfl) (by rfl) (by rfl) (by rfl)


/-- C8: The regression check on the untransformed problem asserts
exactly three conditions: the auxiliary collection has exactly 6 entries,
every entry is a `SecondQuantizedOp`, and each positionally zipped
(expected, computed) pair has exactly equal label strings and coefficient
absolute values within the `np.isclose` tolerance. -/
theorem regression_test_assertions (expected : List (String × Rat))
    (r : SecondQOpsResult) :
    test_second_q_ops_without_transformers expected r = true ↔
      (r.second_quantized_ops.length = 6 ∧
       (∀ op ∈ r.second_quantized_ops, isSecondQuantizedOp op = true) ∧
       (∀ st ∈ expected.zip r.electr_to_list,
          st.1.1 = st.2.1 ∧ npIsClose |st.1.2| |st.2.2| = true)) := by
  simp [test_second_q_ops_without_transformers, termPairCheck,
    List.all_eq_true, and_assoc]

theorem zip_append_of_le {α β : Type} (l1 : List α) (l2 l3 : List β)
    (h : l1.length ≤ l2.length) :
    l1.zip (l2 ++ l3) = l1.zip l2 := by
  induction l1 generalizing l2 with
  | nil => simp
  | cons a t ih =>
    cases l2 with
    | nil => simp at h
    | cons b t2 =>
      simp only [List.cons_append, List.zip_cons_cons, List.cons.injEq]
      exact ⟨trivial, ih t2 (by simpa using h)⟩

/-- C9: The term-by-term comparison positionally zips the fixture with
the computed primary term list, so surplus computed terms are never
compared: appending extra terms to a computed list at least as long as the
fixture leaves the whole test outcome unchanged; concretely, a computed
list strictly longer than the fixture still passes, and no assertion
constrains the primary term list length. -/
theorem zip_comparison_ignores_surplus :
    (∀ (expected : List (String × Rat)) (r : SecondQOpsResult)
       (extra : List (String × Rat)),
      expected.length ≤ r.electr_to_list.length →
      test_second_q_ops_without_transformers expected
          { r with electr_to_list := r.electr_to_list ++ extra }
        = test_second_q_ops_without_transformers expected r) ∧
    (test_second_q_ops_without_transformers demoExpected demoComputed = true ∧
      demoComputed.electr_to_list.length ≠ demoExpected.length) := by
  constructor
  · intro expected r extra hlen
    simp [test_second_q_ops_without_transformers,
      zip_append_of_le expected r.electr_to_list extra hlen]
  · constructor
    · norm_num [test_second_q_ops_without_transformers, demoExpected, demoComputed,
        npIsClose, termPairCheck, isSecondQuantizedOp]
    · decide

/-- Witness for C9: surplus invariance applied at the concrete fixture and
computed result with one appended bogus term. -/
theorem zip_comparison_ignores_surplus_witness :
    test_second_q_ops_without_transformers demoExpected
        { demoComputed with
          electr_to_list := demoComputed.electr_to_list ++ [("XX", 3)] }
      = test_second_q_ops_without_transformers demoExpected demoComputed :=
  zip_comparison_ignores_surplus.1 demoExpected demoComputed [("XX", 3)]
    (by decide)

end QiskitNature
